import Mathlib

/-!
Verification development for the `rl1` roguelike prototype.

The repository sources `components.rs`, `spatial.rs`, `world.rs` and `main.rs`
are embedded shallowly below.  The `visibility` module (shadowcast engine,
light accumulator, visibility grid) is declared in `main.rs` but its source
file is not part of the available sources; its definitions are modelled from
the specification and are marked as such in their doc comments.
-/

/-- Entity handles, as allocated by `EntityAllocator` (`entity_table` crate). -/
abbrev Entity := Nat

/-- Signed 2D grid coordinate (`gridbugs::coord_2d::Coord`). -/
structure Coord where
  x : Int
  y : Int
deriving DecidableEq

instance : Add Coord := ⟨fun a b => ⟨a.x + b.x, a.y + b.y⟩⟩

/-- Grid size (`gridbugs::coord_2d::Size`): width and height in cells. -/
structure Size where
  width : Nat
  height : Nat
deriving DecidableEq

/-- Whether a coordinate lies inside the rectangle of the given size,
origin at the top-left corner. -/
def Size.containsCoord (s : Size) (c : Coord) : Bool :=
  decide (0 ≤ c.x ∧ c.x < (s.width : Int) ∧ 0 ≤ c.y ∧ c.y < (s.height : Int))

/-- Squared Euclidean distance between two coordinates, as a natural number. -/
def distSq (a b : Coord) : Nat :=
  ((a.x - b.x) * (a.x - b.x) + (a.y - b.y) * (a.y - b.y)).toNat

/-- The tile enumeration from `components.rs`. -/
inductive Tile where
  | Player
  | Wall
  | Floor
deriving DecidableEq

/-- The spatial layers declared in `spatial.rs`. -/
inductive Layer where
  | Floor
  | Feature
  | Character
  | Item
deriving DecidableEq

/-- The per-coordinate layer occupancy record returned by `layers_at`. -/
structure Layers where
  floor : Option Entity
  feature : Option Entity
  character : Option Entity
  item : Option Entity
deriving DecidableEq

/-- A spatial location: a coordinate plus an optional layer
(`spatial_table::Location`). -/
structure Location where
  coord : Coord
  layer : Option Layer
deriving DecidableEq

/-- Errors returned by `spatial_table::SpatialTable::update`.  The real crate
reports a destination cell already occupied on the requested layer; an
out-of-bounds destination is modelled as an error as well (the game logic
never reaches that case: every `update_coord` call is guarded by a successful
`layers_at`). -/
inductive UpdateError where
  | occupiedBy (e : Entity)
  | outOfBounds
deriving DecidableEq

/-- The spatial occupancy index (`spatial_table::SpatialTable<Layers>`): a
fixed grid size plus the location of every tracked entity. -/
structure SpatialTable where
  grid_size : Size
  locations : List (Entity × Location)
deriving DecidableEq

/-- The coordinate of an entity, if the table tracks it (`coord_of`). -/
def SpatialTable.coord_of (st : SpatialTable) (e : Entity) : Option Coord :=
  (st.locations.lookup e).map Location.coord

/-- The full location of an entity, if the table tracks it. -/
def SpatialTable.location_of (st : SpatialTable) (e : Entity) : Option Location :=
  st.locations.lookup e

/-- The entity occupying the given layer slot at a coordinate, if any. -/
def SpatialTable.slotAt (st : SpatialTable) (c : Coord) (l : Layer) : Option Entity :=
  (st.locations.find? (fun p => decide (p.2.coord = c ∧ p.2.layer = some l))).map Prod.fst

/-- The layer record at a coordinate: `some` of the four slots when the
coordinate is inside the grid, `none` otherwise (`layers_at`). -/
def SpatialTable.layers_at (st : SpatialTable) (c : Coord) : Option Layers :=
  if st.grid_size.containsCoord c then
    some
      { floor := st.slotAt c Layer.Floor
        feature := st.slotAt c Layer.Feature
        character := st.slotAt c Layer.Character
        item := st.slotAt c Layer.Item }
  else none

/-- Insert or move an entity to a location, replacing its previous entry. -/
def SpatialTable.place (st : SpatialTable) (e : Entity) (loc : Location) : SpatialTable :=
  { st with locations := (e, loc) :: st.locations.filter (fun p => decide (p.1 ≠ e)) }

/-- Update an entity's location (`SpatialTable::update`): fails when the
destination coordinate is outside the grid, or when the requested layer slot
at the destination is already occupied by a different entity. -/
def SpatialTable.update (st : SpatialTable) (e : Entity) (loc : Location) :
    Except UpdateError SpatialTable :=
  if st.grid_size.containsCoord loc.coord then
    match loc.layer with
    | none => Except.ok (st.place e loc)
    | some l =>
      match st.slotAt loc.coord l with
      | some occupant =>
        if occupant = e then Except.ok (st.place e loc)
        else Except.error (UpdateError.occupiedBy occupant)
      | none => Except.ok (st.place e loc)
  else Except.error UpdateError.outOfBounds

/-- Move an entity to a new coordinate keeping its current layer
(`SpatialTable::update_coord`); fails when the entity is not tracked. -/
def SpatialTable.update_coord (st : SpatialTable) (e : Entity) (c : Coord) :
    Except UpdateError SpatialTable :=
  match st.location_of e with
  | none => Except.error UpdateError.outOfBounds
  | some loc => st.update e { coord := c, layer := loc.layer }

/-- A fresh spatial table of the given size with no tracked entities. -/
def SpatialTable.new (s : Size) : SpatialTable :=
  { grid_size := s, locations := [] }

/-- A 24-bit colour (`rgb_int::Rgb24`): three 8-bit channels, kept as
naturals that all operations below hold at or below 255. -/
structure Rgb24 where
  r : Nat
  g : Nat
  b : Nat
deriving DecidableEq

/-- `Rgb24::new_grey`. -/
def Rgb24.new_grey (v : Nat) : Rgb24 := ⟨v, v, v⟩

/-- Per-channel saturating addition (`Rgb24::saturating_add`), capped at 255. -/
def Rgb24.saturating_add (a c : Rgb24) : Rgb24 :=
  ⟨min 255 (a.r + c.r), min 255 (a.g + c.g), min 255 (a.b + c.b)⟩

/-- The exact rational falloff rate of a light (`visibility::Rational`). -/
structure Rational where
  numerator : Nat
  denominator : Nat
deriving DecidableEq

/-- A light component (`visibility::Light`): colour, maximum range as a
squared-distance circle (`Circle::new_squared`), and a rational diminish
rate. -/
structure Light where
  colour : Rgb24
  vision_distance : Nat
  diminish : Rational
deriving DecidableEq

/-- The component stores declared in `components.rs`: entity-keyed
association tables for tile, opacity, solid-marker and light. -/
structure Components where
  tile : List (Entity × Tile)
  opacity : List (Entity × Nat)
  solid : List (Entity × Unit)
  light : List (Entity × Light)
deriving DecidableEq

/-- Empty component stores (`Components::default`). -/
def Components.default : Components := ⟨[], [], [], []⟩

/-- Whether an entity carries the solid marker (`solid.contains`). -/
def Components.solidContains (cs : Components) (e : Entity) : Bool :=
  (cs.solid.lookup e).isSome

/-- A bundle of optional components for one entity (`EntityData`). -/
structure EntityData where
  tile : Option Tile := none
  opacity : Option Nat := none
  solid : Option Unit := none
  light : Option Light := none
deriving DecidableEq

/-- Insert one entry into an entity-keyed table, replacing any previous
entry for the same entity (`ComponentTable::insert`). -/
def tableInsert {α : Type} (t : List (Entity × α)) (e : Entity) (v : α) :
    List (Entity × α) :=
  (e, v) :: t.filter (fun p => decide (p.1 ≠ e))

/-- Insert every present field of an `EntityData` for an entity
(`Components::insert_entity_data`). -/
def Components.insert_entity_data (cs : Components) (e : Entity) (d : EntityData) :
    Components :=
  { tile := match d.tile with | some v => tableInsert cs.tile e v | none => cs.tile
    opacity := match d.opacity with | some v => tableInsert cs.opacity e v | none => cs.opacity
    solid := match d.solid with | some v => tableInsert cs.solid e v | none => cs.solid
    light := match d.light with | some v => tableInsert cs.light e v | none => cs.light }

/-- The world state from `world.rs`: an entity allocator (modelled as the
next fresh entity id), the component stores, and the spatial table. -/
structure World where
  entity_allocator : Nat
  components : Components
  spatial_table : SpatialTable
deriving DecidableEq

/-- `World::new`. -/
def World.new (s : Size) : World :=
  { entity_allocator := 0
    components := Components.default
    spatial_table := SpatialTable.new s }

/-- `World::size`. -/
def World.size (w : World) : Size := w.spatial_table.grid_size

/-- `World::entity_coord`. -/
def World.entity_coord (w : World) (e : Entity) : Option Coord :=
  w.spatial_table.coord_of e

/-- `World::get_opacity_at_coord`: the opacity component of the feature-layer
occupant of the coordinate, defaulting to 0 when the coordinate is out of
bounds, has no feature occupant, or the occupant has no opacity component. -/
def World.get_opacity_at_coord (w : World) (c : Coord) : Nat :=
  (((w.spatial_table.layers_at c).bind Layers.feature).bind
    (fun e => w.components.opacity.lookup e)).getD 0

/-- `World::all_lights_by_coord`: every light component paired with the
coordinate of its entity, skipping lights whose entity has no coordinate. -/
def World.all_lights_by_coord (w : World) : List (Coord × Light) :=
  w.components.light.filterMap
    (fun p => (w.spatial_table.coord_of p.1).map (fun c => (c, p.2)))

/-- `World::make_player`: a player tile plus a grey-63 light of squared
vision distance 90 and diminish rate 1/4. -/
def World.make_player : EntityData :=
  { tile := some Tile.Player
    light := some
      { colour := Rgb24.new_grey 63
        vision_distance := 90
        diminish := { numerator := 1, denominator := 4 } } }

/-- `World::spawn_floor`: allocate an entity, place it on the floor layer
(the source unwraps the spatial update, so failure is a `none`), and give it
the floor tile. -/
def World.spawn_floor (w : World) (c : Coord) : Option (World × Entity) :=
  let e := w.entity_allocator
  match w.spatial_table.update e { coord := c, layer := some Layer.Floor } with
  | Except.error _ => none
  | Except.ok st =>
    some
      ({ entity_allocator := e + 1
         components := { w.components with tile := tableInsert w.components.tile e Tile.Floor }
         spatial_table := st }, e)

/-- `World::spawn_wall`: allocate an entity, place it on the feature layer,
and give it the wall tile, the solid marker and opacity 255. -/
def World.spawn_wall (w : World) (c : Coord) : Option (World × Entity) :=
  let e := w.entity_allocator
  match w.spatial_table.update e { coord := c, layer := some Layer.Feature } with
  | Except.error _ => none
  | Except.ok st =>
    some
      ({ entity_allocator := e + 1
         components :=
          { w.components with
            tile := tableInsert w.components.tile e Tile.Wall
            solid := tableInsert w.components.solid e ()
            opacity := tableInsert w.components.opacity e 255 }
         spatial_table := st }, e)

/-- `World::spawn_light`: allocate an entity, place it with no layer, and
give it a light of squared vision distance 200 and diminish rate 1/10. -/
def World.spawn_light (w : World) (c : Coord) (colour : Rgb24) : Option (World × Entity) :=
  let e := w.entity_allocator
  match w.spatial_table.update e { coord := c, layer := none } with
  | Except.error _ => none
  | Except.ok st =>
    some
      ({ entity_allocator := e + 1
         components :=
          { w.components with
            light := tableInsert w.components.light e
              { colour
                vision_distance := 200
                diminish := { numerator := 1, denominator := 10 } } }
         spatial_table := st }, e)

/-- `World::insert_entity_data`: allocate an entity, place it at the given
location, and insert every present component of the data bundle. -/
def World.insert_entity_data (w : World) (loc : Location) (d : EntityData) :
    Option (World × Entity) :=
  let e := w.entity_allocator
  match w.spatial_table.update e loc with
  | Except.error _ => none
  | Except.ok st =>
    some
      ({ entity_allocator := e + 1
         components := w.components.insert_entity_data e d
         spatial_table := st }, e)

/-- Integer division rounding to the nearest integer (half rounded up),
used to walk the discrete sight line between two coordinates. -/
def roundDiv (a b : Int) : Int := (2 * a + b).fdiv (2 * b)

/-- Modelled from the spec: the cells strictly between two coordinates along
the best (straight) sight line, sampled one cell per Chebyshev step.  The
spec describes the Shadowcast Engine's `remaining_visibility` as the
cumulative transparency "along the best sight line" to a coordinate; this is
the discrete line between the endpoints, excluding both endpoints. -/
def lineInterior (o c : Coord) : List Coord :=
  let dx := c.x - o.x
  let dy := c.y - o.y
  let n := max dx.natAbs dy.natAbs
  ((List.range n).drop 1).map
    (fun i => ⟨o.x + roundDiv ((i : Int) * dx) (n : Int), o.y + roundDiv ((i : Int) * dy) (n : Int)⟩)

/-- Modelled from the spec: remaining visibility of a coordinate as seen
from an origin — starts at 255 at the origin and is reduced by the opacity
of every cell passed through (the strict interior of the sight line),
flooring at 0. -/
def remainingVisibility (opacity_of : Coord → Nat) (o c : Coord) : Nat :=
  255 - (lineInterior o c).foldl (fun acc p => acc + opacity_of p) 0

/-- Modelled from the spec: the Shadowcast Engine contract `compute_visible`
of the missing `visibility` module.  A coordinate is in the result iff it is
within the squared-radius bound and is the origin itself or retains positive
remaining visibility; the value attached is the remaining visibility.  A
cell's own opacity never hides the cell itself (one can see a wall, not
through it), and a fully opaque cell zeroes everything strictly behind it. -/
def compute_visible (opacity_of : Coord → Nat) (origin : Coord) (max_squared_radius : Nat)
    (c : Coord) : Option Nat :=
  if distSq origin c ≤ max_squared_radius ∧
      (c = origin ∨ 0 < remainingVisibility opacity_of origin c) then
    some (remainingVisibility opacity_of origin c)
  else none

/-- Modelled from the spec: convert a light's remaining visibility at a
coordinate into an attenuated colour contribution — each channel is scaled
by the remaining-visibility fraction times the diminish ratio and clamped
to 255 (one monotonic saturating formula, as the spec instructs). -/
def attenuatedColour (l : Light) (remaining : Nat) : Rgb24 :=
  let scale := fun ch => min 255 (ch * remaining * l.diminish.numerator /
    (255 * l.diminish.denominator))
  ⟨scale l.colour.r, scale l.colour.g, scale l.colour.b⟩

/-- Modelled from the spec: the colour contribution of one light at one
coordinate — the shadowcast run from the light's coordinate with the light's
squared vision distance, mapped through attenuation. -/
def lightContribution (opacity_of : Coord → Nat) (lc : Coord × Light) (c : Coord) :
    Option Rgb24 :=
  (compute_visible opacity_of lc.1 lc.2.vision_distance c).map (attenuatedColour lc.2)

/-- Modelled from the spec: merge an optional accumulated colour with an
optional new contribution by per-channel saturating addition; absence means
no light reached the coordinate, not black. -/
def mergeContribution (acc contrib : Option Rgb24) : Option Rgb24 :=
  match acc, contrib with
  | none, x => x
  | some a, none => some a
  | some a, some x => some (a.saturating_add x)

/-- Modelled from the spec: the Light Accumulator contract
`compute_lighting` — run the Shadowcast Engine once per light and
saturating-add the attenuated contributions per coordinate; coordinates
reached by no light get no entry. -/
def compute_lighting (lights : List (Coord × Light)) (opacity_of : Coord → Nat)
    (c : Coord) : Option Rgb24 :=
  lights.foldl (fun acc lc => mergeContribution acc (lightContribution opacity_of lc c)) none

/-- An entity together with its tile, as snapshotted for the renderer
(`visibility::EntityTile`). -/
structure EntityTile where
  entity : Entity
  tile : Tile
deriving DecidableEq

/-- The last-observed occupants of the four layers of one cell. -/
structure TileLayers where
  floor : Option EntityTile
  feature : Option EntityTile
  character : Option EntityTile
  item : Option EntityTile
deriving DecidableEq

/-- An empty tile-layer snapshot. -/
def TileLayers.empty : TileLayers := ⟨none, none, none, none⟩

/-- The classification a cell reports to the renderer
(`visibility::CellVisibility` as matched in `main.rs`). -/
inductive CellVisibility where
  | CurrentlyVisibleWithLightColour (colour : Option Rgb24)
  | PreviouslyVisible
  | NeverVisible
deriving DecidableEq

/-- Modelled from the spec: one persistent record per grid coordinate
(`visibility::VisibilityCell`) — the last-observed tile layers, the
last-seen visit count (0 meaning never seen), and the colour attached by
the most recent visible pass. -/
structure VisibilityCell where
  last_seen : Nat
  tile_layers : TileLayers
  light_colour : Option Rgb24
deriving DecidableEq

/-- Modelled from the spec: per-cell classification, parameterised by the
grid's current visit count.  Per the data model, a cell is currently
visible iff `last_seen` equals the current visit count, previously visible
iff `0 < last_seen <` the count, and otherwise never visible. -/
def VisibilityCell.visibility (cell : VisibilityCell) (count : Nat) : CellVisibility :=
  if cell.last_seen = count then
    CellVisibility.CurrentlyVisibleWithLightColour cell.light_colour
  else if 0 < cell.last_seen ∧ cell.last_seen < count then
    CellVisibility.PreviouslyVisible
  else CellVisibility.NeverVisible

/-- Modelled from the spec: the Visibility Grid (`visibility::VisibilityGrid`)
— one cell per coordinate of the fixed-size grid plus the monotonically
increasing current visit count. -/
structure VisibilityGrid where
  grid_size : Size
  current_visit_count : Nat
  cells : Coord → VisibilityCell

/-- Modelled from the spec: a fresh grid sized to the map — every cell never
seen (`last_seen = 0`), with the counter starting positive so that fresh
cells classify as never visible. -/
def VisibilityGrid.new (s : Size) : VisibilityGrid :=
  { grid_size := s
    current_visit_count := 1
    cells := fun _ => { last_seen := 0, tile_layers := TileLayers.empty, light_colour := none } }

/-- `VisibilityGrid::count`. -/
def VisibilityGrid.count (g : VisibilityGrid) : Nat := g.current_visit_count

/-- Snapshot the occupants of all four layers at a coordinate, pairing each
slot entity with its tile component. -/
def snapshotLayers (w : World) (c : Coord) : TileLayers :=
  let slot := fun (sel : Layers → Option Entity) =>
    ((w.spatial_table.layers_at c).bind sel).bind
      (fun e => (w.components.tile.lookup e).map (EntityTile.mk e))
  { floor := slot Layers.floor
    feature := slot Layers.feature
    character := slot Layers.character
    item := slot Layers.item }

/-- Modelled from the spec: the radius used by a visibility update — the
override when supplied, else the observer's own squared vision distance
(the player's light has `Circle::new_squared(90)`). -/
def visionRadius (override_radius : Option Nat) : Nat := override_radius.getD 90

/-- Modelled from the spec: `VisibilityGrid::update` — increment the visit
count, run the Shadowcast Engine from the observer, run the Light
Accumulator over all lights of the world, and for every in-bounds coordinate
of the visible set overwrite its cell with a fresh snapshot, the new count
and the accumulated colour; every other cell is left untouched. -/
def VisibilityGrid.update (g : VisibilityGrid) (observer : Coord) (w : World)
    (override_radius : Option Nat) : VisibilityGrid :=
  let radius := visionRadius override_radius
  let newCount := g.current_visit_count + 1
  let lighting := compute_lighting w.all_lights_by_coord w.get_opacity_at_coord
  { g with
    current_visit_count := newCount
    cells := fun c =>
      if g.grid_size.containsCoord c ∧
          (compute_visible w.get_opacity_at_coord observer radius c).isSome then
        { last_seen := newCount
          tile_layers := snapshotLayers w c
          light_colour := lighting c }
      else g.cells c }

/-- The four cardinal directions (`gridbugs::direction::CardinalDirection`). -/
inductive CardinalDirection where
  | North
  | East
  | South
  | West
deriving DecidableEq

/-- `CardinalDirection::coord`: the unit step of a direction, with the grid
origin at the top-left (north decreases `y`). -/
def CardinalDirection.coord : CardinalDirection → Coord
  | CardinalDirection.North => ⟨0, -1⟩
  | CardinalDirection.East => ⟨1, 0⟩
  | CardinalDirection.South => ⟨0, 1⟩
  | CardinalDirection.West => ⟨-1, 0⟩

/-- The game state from `main.rs`: the world, the player entity and the
visibility grid (the shadowcast context is algorithm scratch space and
carries no observable state). -/
structure Game where
  world : World
  player_entity : Entity
  visibility_grid : VisibilityGrid

/-- `Game::update_visibility`: when the player entity has a coordinate, run
the visibility grid update from it with no override radius; otherwise do
nothing. -/
def Game.update_visibility (g : Game) : Game :=
  match g.world.entity_coord g.player_entity with
  | none => g
  | some player_coord =>
    { g with visibility_grid := g.visibility_grid.update player_coord g.world none }

/-- `Game::player_walk`: unwrap the player's coordinate (a `none` models the
source's panicking unwrap), and step one cell in the given direction.  A
solid feature at the destination returns early; otherwise, when the
destination is in bounds and has a floor, attempt the move (ignoring a
failed spatial update), and in every non-solid case run a visibility
update. -/
def Game.player_walk (g : Game) (direction : CardinalDirection) : Option Game :=
  match g.world.spatial_table.coord_of g.player_entity with
  | none => none
  | some player_coord =>
    let destination := player_coord + direction.coord
    match g.world.spatial_table.layers_at destination with
    | some layers =>
      if (match layers.feature with
          | some feature => g.world.components.solidContains feature
          | none => false) then
        some g
      else
        let w :=
          if layers.floor.isSome then
            match g.world.spatial_table.update_coord g.player_entity destination with
            | Except.ok st => { g.world with spatial_table := st }
            | Except.error _ => g.world
          else g.world
        some (Game.update_visibility { g with world := w })
    | none => some g.update_visibility

/-- Apply a sequence of visibility updates, each with its own observer,
world and override radius. -/
def applyUpdates (g : VisibilityGrid) : List (Coord × World × Option Nat) → VisibilityGrid
  | [] => g
  | a :: rest => applyUpdates (g.update a.1 a.2.1 a.2.2) rest

/-- Whether the walk destination permits movement: in bounds, feature layer
absent or non-solid, and floor layer occupied. -/
def walkDestinationFree (w : World) (destination : Coord) : Bool :=
  match w.spatial_table.layers_at destination with
  | none => false
  | some layers =>
    (match layers.feature with
     | some feature => !(w.components.solidContains feature)
     | none => true) && layers.floor.isSome

/-- Whether the walk destination holds a solid feature (the early-return
case of `player_walk`). -/
def walkDestinationSolid (w : World) (destination : Coord) : Bool :=
  match w.spatial_table.layers_at destination with
  | none => false
  | some layers =>
    match layers.feature with
    | some feature => w.components.solidContains feature
    | none => false

/-- The spec's 5-by-1 test scenario: floors everywhere, a wall spawned at
coordinate (2,0); `none` would mean a spawn failed. -/
def scenarioBuild : Option World := do
  let w := World.new ⟨5, 1⟩
  let (w, _) ← w.spawn_floor ⟨0, 0⟩
  let (w, _) ← w.spawn_floor ⟨1, 0⟩
  let (w, _) ← w.spawn_floor ⟨2, 0⟩
  let (w, _) ← w.spawn_floor ⟨3, 0⟩
  let (w, _) ← w.spawn_floor ⟨4, 0⟩
  let (w, _) ← w.spawn_wall ⟨2, 0⟩
  pure w

/-- The built scenario world (the build succeeds, as witnessed below). -/
def scenarioWorld : World := scenarioBuild.getD (World.new ⟨5, 1⟩)

/-- A concrete red light for order-independence witnesses. -/
def lampRed : Coord × Light :=
  (⟨0, 0⟩, { colour := ⟨255, 0, 0⟩, vision_distance := 200
             diminish := { numerator := 1, denominator := 10 } })

/-- A concrete green light for order-independence witnesses. -/
def lampGreen : Coord × Light :=
  (⟨1, 0⟩, { colour := ⟨0, 255, 0⟩, vision_distance := 200
             diminish := { numerator := 1, denominator := 10 } })

/-- The result of spawning one wall into an empty 3-by-3 world. -/
def wallSpawn : World × Entity :=
  ((World.new ⟨3, 3⟩).spawn_wall ⟨1, 1⟩).getD (World.new ⟨3, 3⟩, 0)

/-- A game used by witnesses: a world with no entities, so the player
entity has no resolvable position. -/
def emptyGame : Game :=
  { world := World.new ⟨1, 1⟩
    player_entity := 0
    visibility_grid := VisibilityGrid.new ⟨1, 1⟩ }

/-- A 3-by-1 game: floors at (0,0), (1,0) and (2,0), a wall at (2,0), the
player standing at (0,0); used by the walk witnesses. -/
def walkGameBuild : Option Game := do
  let w := World.new ⟨3, 1⟩
  let (w, _) ← w.spawn_floor ⟨0, 0⟩
  let (w, _) ← w.spawn_floor ⟨1, 0⟩
  let (w, _) ← w.spawn_floor ⟨2, 0⟩
  let (w, _) ← w.spawn_wall ⟨2, 0⟩
  let (w, p) ← w.insert_entity_data
    { coord := ⟨0, 0⟩, layer := some Layer.Character } World.make_player
  pure { world := w, player_entity := p, visibility_grid := VisibilityGrid.new ⟨3, 1⟩ }

/-- The built walk game. -/
def walkGame : Game := walkGameBuild.getD emptyGame

/-- C3: for every opacity field, origin and maximum squared radius, the
shadowcast result contains the origin itself with full (255) remaining
visibility. -/
theorem c3_origin_always_fully_visible (opacity_of : Coord → Nat) (origin : Coord)
    (max_squared_radius : Nat) :
    compute_visible opacity_of origin max_squared_radius origin = some 255 := by
  have hline : lineInterior origin origin = [] := by
    simp [lineInterior]
  have hrem : remainingVisibility opacity_of origin origin = 255 := by
    simp [remainingVisibility, hline]
  have hdist : distSq origin origin = 0 := by
    simp [distSq]
  unfold compute_visible
  rw [if_pos ⟨by omega, Or.inl rfl⟩, hrem]

/-- C6: a coordinate outside the currently-visible set computed from the
observer is left entirely untouched by a visibility update — its snapshot,
last-seen value and colour are all unchanged. -/
theorem c6_nonvisible_cells_untouched (g : VisibilityGrid) (observer : Coord) (w : World)
    (override_radius : Option Nat) (c : Coord)
    (h : compute_visible w.get_opacity_at_coord observer (visionRadius override_radius) c = none) :
    (g.update observer w override_radius).cells c = g.cells c := by
  simp [VisibilityGrid.update, h]

/-- Witness for C6 on the concrete 5-by-1 scenario: the cell behind the
wall is not visible and its record survives an update unchanged. -/
theorem c6_witness :
    compute_visible scenarioWorld.get_opacity_at_coord ⟨0, 0⟩ (visionRadius none) ⟨4, 0⟩ = none ∧
    ((VisibilityGrid.new ⟨5, 1⟩).update ⟨0, 0⟩ scenarioWorld none).cells ⟨4, 0⟩ =
      (VisibilityGrid.new ⟨5, 1⟩).cells ⟨4, 0⟩ :=
  ⟨by decide, c6_nonvisible_cells_untouched _ _ _ _ _ (by decide)⟩

/-- C7: when the player entity has no resolvable position, the visibility
update is skipped entirely — the whole game state, in particular the
visibility grid and its visit count, is unchanged. -/
theorem c7_no_observer_skips_update (g : Game)
    (h : g.world.entity_coord g.player_entity = none) :
    g.update_visibility = g := by
  simp [Game.update_visibility, h]

/-- Witness for C7: a game whose player entity is tracked nowhere. -/
theorem c7_witness :
    emptyGame.world.entity_coord emptyGame.player_entity = none ∧
    emptyGame.update_visibility = emptyGame :=
  ⟨by decide, c7_no_observer_skips_update emptyGame (by decide)⟩

/-- C8: `get_opacity_at_coord` is determined by the feature-layer occupant
alone — 0 when there is none (out-of-bounds included), else that occupant's
opacity component defaulting to 0; the other layers never contribute. -/
theorem c8_opacity_from_feature_layer (w : World) (c : Coord) :
    ((w.spatial_table.layers_at c).bind Layers.feature = none →
      w.get_opacity_at_coord c = 0) ∧
    (∀ e : Entity, (w.spatial_table.layers_at c).bind Layers.feature = some e →
      w.get_opacity_at_coord c = (w.components.opacity.lookup e).getD 0) := by
  constructor
  · intro h
    simp [World.get_opacity_at_coord, h]
  · intro e h
    simp [World.get_opacity_at_coord, h]

/-- Witness for C8: in the scenario world, coordinate (3,0) has a floor but
no feature, so its opacity is 0. -/
theorem c8_witness : scenarioWorld.get_opacity_at_coord ⟨3, 0⟩ = 0 :=
  (c8_opacity_from_feature_layer scenarioWorld ⟨3, 0⟩).1 (by decide)

/-- C2: on the 5-by-1 scenario (wall of opacity 255 at (2,0), observer at
(0,0), any radius covering the grid) the visible set is exactly the origin,
the cell before the wall, and the wall itself; both cells strictly behind
the wall are excluded. -/
theorem c2_wall_blocks_sight (max_squared_radius : Nat) (h : 16 ≤ max_squared_radius) :
    (compute_visible scenarioWorld.get_opacity_at_coord ⟨0, 0⟩ max_squared_radius
      ⟨0, 0⟩).isSome = true ∧
    (compute_visible scenarioWorld.get_opacity_at_coord ⟨0, 0⟩ max_squared_radius
      ⟨1, 0⟩).isSome = true ∧
    (compute_visible scenarioWorld.get_opacity_at_coord ⟨0, 0⟩ max_squared_radius
      ⟨2, 0⟩).isSome = true ∧
    compute_visible scenarioWorld.get_opacity_at_coord ⟨0, 0⟩ max_squared_radius
      ⟨3, 0⟩ = none ∧
    compute_visible scenarioWorld.get_opacity_at_coord ⟨0, 0⟩ max_squared_radius
      ⟨4, 0⟩ = none := by
  refine ⟨?_, ?_, ?_, ?_, ?_⟩ <;> unfold compute_visible
  · rw [if_pos ⟨le_trans (by decide) h, Or.inl rfl⟩]
    rfl
  · rw [if_pos ⟨le_trans (by decide) h, Or.inr (by decide)⟩]
    rfl
  · rw [if_pos ⟨le_trans (by decide) h, Or.inr (by decide)⟩]
    rfl
  · rw [if_neg]
    intro hc
    exact (by decide : ¬((⟨3, 0⟩ : Coord) = ⟨0, 0⟩ ∨
      0 < remainingVisibility scenarioWorld.get_opacity_at_coord ⟨0, 0⟩ ⟨3, 0⟩)) hc.2
  · rw [if_neg]
    intro hc
    exact (by decide : ¬((⟨4, 0⟩ : Coord) = ⟨0, 0⟩ ∨
      0 < remainingVisibility scenarioWorld.get_opacity_at_coord ⟨0, 0⟩ ⟨4, 0⟩)) hc.2

/-- Witness for C2 at the concrete radius 100. -/
theorem c2_witness :
    16 ≤ 100 ∧
    compute_visible scenarioWorld.get_opacity_at_coord ⟨0, 0⟩ 100 ⟨3, 0⟩ = none :=
  ⟨by decide, (c2_wall_blocks_sight 100 (by decide)).2.2.2.1⟩

/-- Counterexample for C5 as stated: at visit count 0 a cell with
`last_seen = 0` and a colour entry classifies as currently visible (the
data model makes `last_seen = count` the currently-visible test), not as
`NeverVisible` as the claim's last case demands. -/
theorem c5_counterexample :
    ¬ (VisibilityCell.visibility
        { last_seen := 0, tile_layers := TileLayers.empty
          light_colour := some (Rgb24.new_grey 63) } 0 =
      CellVisibility.NeverVisible) := by decide

/-- C5 (amended): for every cell and every positive current visit count,
the classification is exactly the claimed case split — equal counts give
currently visible with the cell's colour entry, a positive stale count
gives previously visible, and zero gives never visible. -/
theorem c5_classification (cell : VisibilityCell) (count : Nat) (hpos : 0 < count) :
    (∀ col : Rgb24, cell.last_seen = count → cell.light_colour = some col →
      cell.visibility count = CellVisibility.CurrentlyVisibleWithLightColour (some col)) ∧
    (cell.last_seen = count → cell.light_colour = none →
      cell.visibility count = CellVisibility.CurrentlyVisibleWithLightColour none) ∧
    (0 < cell.last_seen ∧ cell.last_seen < count →
      cell.visibility count = CellVisibility.PreviouslyVisible) ∧
    (cell.last_seen = 0 → cell.visibility count = CellVisibility.NeverVisible) := by
  refine ⟨?_, ?_, ?_, ?_⟩
  · intro col hseen hcol
    simp [VisibilityCell.visibility, hseen, hcol]
  · intro hseen hcol
    simp [VisibilityCell.visibility, hseen, hcol]
  · intro hprev
    have hne : cell.last_seen ≠ count := Nat.ne_of_lt hprev.2
    simp [VisibilityCell.visibility, hne, hprev.1, hprev.2]
  · intro hzero
    have hne : cell.last_seen ≠ count := by omega
    simp [VisibilityCell.visibility, hne, hzero]
    omega

/-- Witness for C5 (amended) at visit count 1: a never-seen cell reports
`NeverVisible`. -/
theorem c5_witness :
    VisibilityCell.visibility
      { last_seen := 0, tile_layers := TileLayers.empty, light_colour := none } 1 =
      CellVisibility.NeverVisible :=
  (c5_classification _ 1 (by decide)).2.2.2 rfl

theorem lookup_tableInsert_self {α : Type} (t : List (Entity × α)) (e : Entity) (v : α) :
    (tableInsert t e v).lookup e = some v := by
  simp [tableInsert, List.lookup]

theorem SpatialTable.update_ok {st st' : SpatialTable} {e : Entity} {loc : Location}
    (h : st.update e loc = Except.ok st') :
    st' = st.place e loc ∧ st.grid_size.containsCoord loc.coord = true := by
  unfold SpatialTable.update at h
  split at h
  case isTrue hb =>
    split at h
    · exact ⟨(Except.ok.injEq _ _ ▸ h).symm, hb⟩
    · split at h
      · split at h
        · exact ⟨(Except.ok.injEq _ _ ▸ h).symm, hb⟩
        · cases h
      · exact ⟨(Except.ok.injEq _ _ ▸ h).symm, hb⟩
  case isFalse hb => cases h

theorem place_location_of_self (st : SpatialTable) (e : Entity) (loc : Location) :
    (st.place e loc).location_of e = some loc := by
  simp [SpatialTable.place, SpatialTable.location_of, List.lookup]

theorem place_slotAt_self (st : SpatialTable) (e : Entity) (c : Coord) (l : Layer) :
    (st.place e ⟨c, some l⟩).slotAt c l = some e := by
  simp [SpatialTable.place, SpatialTable.slotAt, List.find?]

/-- C10: every entity created by `spawn_wall` sits on the feature layer at
the requested coordinate with tile `Wall`, the solid marker and opacity
exactly 255, and the coordinate's opacity reads back as 255. -/
theorem c10_spawn_wall_blocks_all (w w' : World) (c : Coord) (e : Entity)
    (h : w.spawn_wall c = some (w', e)) :
    w'.components.tile.lookup e = some Tile.Wall ∧
    w'.components.solidContains e = true ∧
    w'.components.opacity.lookup e = some 255 ∧
    w'.spatial_table.location_of e = some ⟨c, some Layer.Feature⟩ ∧
    w'.get_opacity_at_coord c = 255 := by
  simp only [World.spawn_wall] at h
  split at h
  · cases h
  next st heq =>
    obtain ⟨hup, hb⟩ := SpatialTable.update_ok heq
    simp only [Option.some.injEq, Prod.mk.injEq] at h
    obtain ⟨hw', he⟩ := h
    subst hw'
    subst he
    refine ⟨lookup_tableInsert_self _ _ _, ?_, lookup_tableInsert_self _ _ _, ?_, ?_⟩
    · simp [Components.solidContains, lookup_tableInsert_self]
    · rw [hup]
      exact place_location_of_self _ _ _
    · have hsize : st.grid_size = w.spatial_table.grid_size := by
        rw [hup]
        rfl
      have hslot : st.slotAt c Layer.Feature = some w.entity_allocator := by
        rw [hup]
        exact place_slotAt_self _ _ _ _
      simp [World.get_opacity_at_coord, SpatialTable.layers_at, hsize, hb, hslot,
        lookup_tableInsert_self]

/-- Witness for C10: spawning a wall into an empty 3-by-3 world. -/
theorem c10_witness :
    (World.new ⟨3, 3⟩).spawn_wall ⟨1, 1⟩ = some (wallSpawn.1, wallSpawn.2) ∧
    wallSpawn.1.components.opacity.lookup wallSpawn.2 = some 255 ∧
    wallSpawn.1.get_opacity_at_coord ⟨1, 1⟩ = 255 :=
  ⟨by decide,
    (c10_spawn_wall_blocks_all (World.new ⟨3, 3⟩) wallSpawn.1 ⟨1, 1⟩ wallSpawn.2
      (by decide)).2.2.1,
    (c10_spawn_wall_blocks_all (World.new ⟨3, 3⟩) wallSpawn.1 ⟨1, 1⟩ wallSpawn.2
      (by decide)).2.2.2.2⟩

theorem satChannel_comm (a x y : Nat) :
    min 255 (min 255 (a + x) + y) = min 255 (min 255 (a + y) + x) := by
  omega

theorem Rgb24.saturating_add_comm (a c : Rgb24) :
    a.saturating_add c = c.saturating_add a := by
  simp [Rgb24.saturating_add, Nat.add_comm]

theorem Rgb24.saturating_add_right_comm (a x y : Rgb24) :
    (a.saturating_add x).saturating_add y = (a.saturating_add y).saturating_add x := by
  simp only [Rgb24.saturating_add, Rgb24.mk.injEq]
  exact ⟨satChannel_comm _ _ _, satChannel_comm _ _ _, satChannel_comm _ _ _⟩

theorem mergeContribution_right_comm (acc x y : Option Rgb24) :
    mergeContribution (mergeContribution acc x) y =
      mergeContribution (mergeContribution acc y) x := by
  cases acc <;> cases x <;> cases y <;> simp [mergeContribution]
  · exact Rgb24.saturating_add_comm _ _
  · exact Rgb24.saturating_add_right_comm _ _ _

/-- C4: light accumulation is order-independent — permuting the sequence of
lights handed to the Light Accumulator yields an identical colour result at
every coordinate, because per-channel saturating addition of contributions
is commutative and associative. -/
theorem c4_light_accumulation_order_independent (opacity_of : Coord → Nat)
    (lights₁ lights₂ : List (Coord × Light)) (h : lights₁.Perm lights₂) (c : Coord) :
    compute_lighting lights₁ opacity_of c = compute_lighting lights₂ opacity_of c := by
  unfold compute_lighting
  haveI : RightCommutative (fun (acc : Option Rgb24) (lc : Coord × Light) =>
      mergeContribution acc (lightContribution opacity_of lc c)) :=
    ⟨fun b a₁ a₂ => mergeContribution_right_comm b _ _⟩
  exact h.foldl_eq none

/-- Witness for C4: swapping two concrete lights leaves the accumulated
colour at (1,0) in the scenario world unchanged. -/
theorem c4_witness :
    compute_lighting [lampRed, lampGreen] scenarioWorld.get_opacity_at_coord ⟨1, 0⟩ =
      compute_lighting [lampGreen, lampRed] scenarioWorld.get_opacity_at_coord ⟨1, 0⟩ :=
  c4_light_accumulation_order_independent scenarioWorld.get_opacity_at_coord
    [lampRed, lampGreen] [lampGreen, lampRed] (List.Perm.swap lampGreen lampRed []) ⟨1, 0⟩

theorem update_count_succ (g : VisibilityGrid) (o : Coord) (w : World) (r : Option Nat) :
    (g.update o w r).current_visit_count = g.current_visit_count + 1 := rfl

theorem update_cells_cases (g : VisibilityGrid) (o : Coord) (w : World) (r : Option Nat)
    (c : Coord) :
    (g.update o w r).cells c = g.cells c ∨
      ((g.update o w r).cells c).last_seen = g.current_visit_count + 1 := by
  unfold VisibilityGrid.update
  dsimp only
  split
  · exact Or.inr rfl
  · exact Or.inl rfl

theorem visibility_ne_never (cell : VisibilityCell) (count : Nat) (hpos : 0 < count)
    (hle : cell.last_seen ≤ count) :
    cell.visibility count ≠ CellVisibility.NeverVisible ↔ 0 < cell.last_seen := by
  unfold VisibilityCell.visibility
  split
  next heq => simp; omega
  next hne =>
    split
    next hp => simp; omega
    next hp =>
      simp
      omega

theorem update_preserves_inv (g : VisibilityGrid) (o : Coord) (w : World) (r : Option Nat)
    (hpos : 0 < g.current_visit_count)
    (hle : ∀ c, (g.cells c).last_seen ≤ g.current_visit_count) :
    (0 < (g.update o w r).current_visit_count ∧
      ∀ c, ((g.update o w r).cells c).last_seen ≤ (g.update o w r).current_visit_count) ∧
    (∀ c, (g.cells c).last_seen ≤ ((g.update o w r).cells c).last_seen) := by
  refine ⟨⟨?_, ?_⟩, ?_⟩
  · rw [update_count_succ]
    omega
  · intro c
    rcases update_cells_cases g o w r c with h | h
    · rw [h, update_count_succ]
      exact le_trans (hle c) (Nat.le_succ _)
    · rw [h, update_count_succ]
  · intro c
    rcases update_cells_cases g o w r c with h | h
    · rw [h]
    · rw [h]
      exact le_trans (hle c) (Nat.le_succ _)

/-- C1: over any sequence of visibility updates, the visit count advances by
exactly 1 per call (so it never decreases), every cell's last-seen value is
monotonically non-decreasing and stays at most the visit count, and a cell
once classified visible is never later classified `NeverVisible`. -/
theorem c1_monotone_memory (g : VisibilityGrid) (calls : List (Coord × World × Option Nat))
    (hpos : 0 < g.current_visit_count)
    (hle : ∀ c, (g.cells c).last_seen ≤ g.current_visit_count) :
    (∀ a : Coord × World × Option Nat,
      (g.update a.1 a.2.1 a.2.2).current_visit_count = g.current_visit_count + 1) ∧
    (applyUpdates g calls).current_visit_count = g.current_visit_count + calls.length ∧
    (∀ c, (g.cells c).last_seen ≤ ((applyUpdates g calls).cells c).last_seen) ∧
    (∀ c, ((applyUpdates g calls).cells c).last_seen ≤
      (applyUpdates g calls).current_visit_count) ∧
    (∀ c, (g.cells c).visibility g.current_visit_count ≠ CellVisibility.NeverVisible →
      ((applyUpdates g calls).cells c).visibility
        (applyUpdates g calls).current_visit_count ≠ CellVisibility.NeverVisible) := by
  induction calls generalizing g with
  | nil =>
    exact ⟨fun a => update_count_succ g a.1 a.2.1 a.2.2, rfl, fun c => le_refl _, hle,
      fun c h => h⟩
  | cons a rest ih =>
    obtain ⟨⟨hpos', hle'⟩, hmono⟩ := update_preserves_inv g a.1 a.2.1 a.2.2 hpos hle
    obtain ⟨_, ihcount, ihmono, ihle, ihnever⟩ := ih (g.update a.1 a.2.1 a.2.2) hpos' hle'
    refine ⟨fun b => update_count_succ g b.1 b.2.1 b.2.2, ?_, ?_, ihle, ?_⟩
    · show (applyUpdates (g.update a.1 a.2.1 a.2.2) rest).current_visit_count = _
      rw [ihcount, update_count_succ, List.length_cons]
      omega
    · intro c
      exact le_trans (hmono c) (ihmono c)
    · intro c h
      apply ihnever c
      rw [visibility_ne_never _ _ hpos' (hle' c)]
      rcases update_cells_cases g a.1 a.2.1 a.2.2 c with hc | hc
      · rw [hc]
        exact (visibility_ne_never _ _ hpos (hle c)).mp h
      · rw [hc]
        omega

/-- Witness for C1: one concrete update on a fresh grid advances the count
from 1 to 2. -/
theorem c1_witness :
    0 < (VisibilityGrid.new ⟨5, 1⟩).current_visit_count ∧
    (applyUpdates (VisibilityGrid.new ⟨5, 1⟩)
        [(⟨0, 0⟩, scenarioWorld, none)]).current_visit_count =
      (VisibilityGrid.new ⟨5, 1⟩).current_visit_count + 1 :=
  ⟨by decide,
    (c1_monotone_memory (VisibilityGrid.new ⟨5, 1⟩) [(⟨0, 0⟩, scenarioWorld, none)]
      (by decide) (fun c => Nat.zero_le _)).2.1⟩

theorem update_visibility_world (g : Game) : g.update_visibility.world = g.world := by
  unfold Game.update_visibility
  split <;> rfl

theorem update_visibility_player (g : Game) :
    g.update_visibility.player_entity = g.player_entity := by
  unfold Game.update_visibility
  split <;> rfl

theorem update_visibility_count (g : Game) (pc : Coord)
    (h : g.world.entity_coord g.player_entity = some pc) :
    g.update_visibility.visibility_grid.current_visit_count =
      g.visibility_grid.current_visit_count + 1 := by
  simp [Game.update_visibility, h, update_count_succ]

theorem place_coord_of_self (st : SpatialTable) (e : Entity) (loc : Location) :
    (st.place e loc).coord_of e = some loc.coord := by
  simp [SpatialTable.place, SpatialTable.coord_of, List.lookup]

theorem update_coord_ok_coord {st st' : SpatialTable} {e : Entity} {c : Coord}
    (h : st.update_coord e c = Except.ok st') : st'.coord_of e = some c := by
  unfold SpatialTable.update_coord at h
  split at h
  · cases h
  next loc hloc =>
    obtain ⟨hst, _⟩ := SpatialTable.update_ok h
    rw [hst]
    exact place_coord_of_self st e { coord := c, layer := loc.layer }

/-- C9: a successful `player_walk` moves the player's coordinate only to the
adjacent destination and only when the destination is in bounds with a
non-solid (or absent) feature and an occupied floor; when those conditions
fail the coordinate is unchanged.  A solid destination feature returns early
with the whole game state (hence the visibility grid) untouched, and in
every other case a visibility update is performed, advancing the visit
count by one. -/
theorem c9_player_walk (g g' : Game) (d : CardinalDirection) (pc : Coord)
    (hpc : g.world.spatial_table.coord_of g.player_entity = some pc)
    (hw : g.player_walk d = some g') :
    g'.player_entity = g.player_entity ∧
    (g'.world.spatial_table.coord_of g.player_entity = some pc ∨
      (walkDestinationFree g.world (pc + d.coord) = true ∧
        g'.world.spatial_table.coord_of g.player_entity = some (pc + d.coord))) ∧
    (walkDestinationFree g.world (pc + d.coord) = false →
      g'.world.spatial_table.coord_of g.player_entity = some pc) ∧
    (walkDestinationSolid g.world (pc + d.coord) = true → g' = g) ∧
    (walkDestinationSolid g.world (pc + d.coord) = false →
      g'.visibility_grid.current_visit_count =
        g.visibility_grid.current_visit_count + 1) := by
  unfold Game.player_walk at hw
  rw [hpc] at hw
  simp only [] at hw
  split at hw
  next layers hlayers =>
    split at hw
    next hsolid =>
      injection hw with hw
      subst hw
      have hsol : walkDestinationSolid g.world (pc + d.coord) = true := by
        simp only [walkDestinationSolid, hlayers]
        exact hsolid
      exact ⟨rfl, Or.inl hpc, fun _ => hpc, fun _ => rfl,
        fun hc => absurd hsol (by simp [hc])⟩
    next hsolid =>
      have hsol : walkDestinationSolid g.world (pc + d.coord) = false := by
        simp only [walkDestinationSolid, hlayers]
        exact Bool.eq_false_iff.mpr hsolid
      by_cases hfloor : layers.floor.isSome = true
      · rw [if_pos hfloor] at hw
        cases hup : g.world.spatial_table.update_coord g.player_entity (pc + d.coord) with
        | ok st =>
          rw [hup] at hw
          dsimp only at hw
          injection hw with hw
          subst hw
          have hcoord : st.coord_of g.player_entity = some (pc + d.coord) :=
            update_coord_ok_coord hup
          have hfree : walkDestinationFree g.world (pc + d.coord) = true := by
            simp only [walkDestinationFree, hlayers]
            rw [Bool.and_eq_true]
            refine ⟨?_, hfloor⟩
            cases hf : layers.feature with
            | none => rfl
            | some feature =>
              rw [hf] at hsolid
              simp at hsolid
              simp [hsolid]
          refine ⟨update_visibility_player _, ?_, ?_, ?_, ?_⟩
          · rw [update_visibility_world]
            exact Or.inr ⟨hfree, hcoord⟩
          · intro hc
            rw [hfree] at hc
            cases hc
          · intro hc
            rw [hc] at hsol
            cases hsol
          · intro _
            exact update_visibility_count _ (pc + d.coord) hcoord
        | error err =>
          rw [hup] at hw
          dsimp only at hw
          injection hw with hw
          subst hw
          refine ⟨update_visibility_player _, ?_, ?_, ?_, ?_⟩
          · rw [update_visibility_world]
            exact Or.inl hpc
          · intro _
            rw [update_visibility_world]
            exact hpc
          · intro hc
            rw [hc] at hsol
            cases hsol
          · intro _
            exact update_visibility_count _ pc hpc
      · rw [if_neg hfloor] at hw
        injection hw with hw
        subst hw
        refine ⟨update_visibility_player _, ?_, ?_, ?_, ?_⟩
        · rw [update_visibility_world]
          exact Or.inl hpc
        · intro _
          rw [update_visibility_world]
          exact hpc
        · intro hc
          rw [hc] at hsol
          cases hsol
        · intro _
          exact update_visibility_count _ pc hpc
  next hlayers =>
    injection hw with hw
    subst hw
    have hsol : walkDestinationSolid g.world (pc + d.coord) = false := by
      simp [walkDestinationSolid, hlayers]
    refine ⟨update_visibility_player _, ?_, ?_, ?_, ?_⟩
    · rw [update_visibility_world]
      exact Or.inl hpc
    · intro _
      rw [update_visibility_world]
      exact hpc
    · intro hc
      rw [hc] at hsol
      cases hsol
    · intro _
      exact update_visibility_count _ pc hpc

/-- Witness for C9: walking east from (0,0) in the concrete walk game hits
a free floor destination, so a visibility update runs and the visit count
advances by one. -/
theorem c9_witness :
    ((walkGame.player_walk CardinalDirection.East).getD
        emptyGame).visibility_grid.current_visit_count =
      walkGame.visibility_grid.current_visit_count + 1 :=
  (c9_player_walk walkGame
    ((walkGame.player_walk CardinalDirection.East).getD emptyGame)
    CardinalDirection.East ⟨0, 0⟩ (by decide) rfl).2.2.2.2 (by decide)
